import Mathlib

/-!
Verification development for the AgentRedCross hospital multi-agent system.
Shallow embedding of the security core: privacy filter (privacy_guard.py),
authorization engine (access_control_agent.py), anomaly detector (ids_agent.py),
audit trail export/query (audit_logger_agent.py) and the message bus
(orchestrator.py / event_queue.py).

Conventions:
- Python dicts holding patient data are association lists `List (String × PyVal)`;
  `dict.get(k)` with a `None` default is `pyGet`.
- Python `datetime` values are integers counting seconds from a midnight epoch,
  so `hour` is `t / 3600 % 24` and `timedelta(minutes=m)` is `m * 60`.
- Side effects (audit_log calls, messages sent to the IDS agent) are returned
  explicitly as lists alongside the response value.
-/

/-- Python value: either None or a string payload (all record values in the
demo data are strings; only presence/absence matters to the claims). -/
inductive PyVal where
  | noneV
  | str (s : String)
deriving DecidableEq

/-- A Python dict viewed as an association list (keys unique in practice). -/
abbrev PyRecord := List (String × PyVal)

/-- dict.get(key) — first binding, defaulting to None. -/
def pyGet (d : PyRecord) (k : String) : PyVal :=
  (d.lookup k).getD PyVal.noneV

/-- An audit_log invocation (BaseAgent.audit_log arguments). -/
structure AuditCall where
  action : String
  patient_id : String
  details : String
deriving DecidableEq

/-! ## Privacy Guard (agents/privacy_guard.py) -/

namespace PrivacyGuard

/-- One row of PrivacyGuardAgent.ROLE_FIELD_ACCESS. -/
structure RoleFieldAccess where
  allowed : List String
  blocked : List String
deriving DecidableEq

/-- PrivacyGuardAgent.ROLE_FIELD_ACCESS. -/
def ROLE_FIELD_ACCESS : List (String × RoleFieldAccess) :=
  [ ("receptionist",
      { allowed := ["patient_id", "name", "dob", "contact", "appointment_time", "created_at"],
        blocked := ["diagnosis", "medications", "lab_results", "imaging_results",
                    "ssn", "insurance_details", "psychiatric_history", "substance_abuse_history"] }),
    ("doctor",
      { allowed := ["patient_id", "name", "dob", "contact", "diagnosis", "medications",
                    "lab_results", "imaging_results", "notes", "psychiatric_history",
                    "substance_abuse_history", "hiv_status", "genetic_predisposition"],
        blocked := ["ssn", "insurance_details", "address", "account_number"] }),
    ("lab_tech",
      { allowed := ["patient_id", "name", "dob", "test_order", "lab_results"],
        blocked := ["diagnosis", "medications", "psychiatric_history", "ssn",
                    "insurance_details", "imaging_results"] }),
    ("billing",
      { allowed := ["patient_id", "name", "dob", "ssn", "insurance_details",
                    "account_number", "charges", "address"],
        blocked := ["diagnosis", "medications", "lab_results", "psychiatric_history",
                    "substance_abuse_history", "hiv_status"] }),
    ("pharmacy",
      { allowed := ["patient_id", "name", "dob", "medications", "allergies"],
        blocked := ["diagnosis", "psychiatric_history", "ssn", "insurance_details",
                    "lab_results", "imaging_results"] }) ]

/-- PrivacyGuardAgent._get_role: agent id to role, defaulting to unknown. -/
def get_role (agent_id : String) : String :=
  (List.lookup agent_id
    [ ("receptionist_agent_1", "receptionist"),
      ("receptionist_agent", "receptionist"),
      ("doctor_agent_1", "doctor"),
      ("doctor_agent", "doctor"),
      ("lab_agent_1", "lab_tech"),
      ("lab_agent", "lab_tech"),
      ("billing_agent_1", "billing"),
      ("billing_agent", "billing"),
      ("pharmacy_agent_1", "pharmacy"),
      ("pharmacy_agent", "pharmacy") ]).getD "unknown"

/-- PrivacyGuardAgent._filter_by_role: keep only fields in the allowed list of
the role; a role absent from the table yields the minimal record of the
subject identifier plus an error marker. -/
def filter_by_role (data : PyRecord) (role : String) : PyRecord :=
  match ROLE_FIELD_ACCESS.lookup role with
  | Option.none =>
      [ ("patient_id", pyGet data "patient_id"),
        ("error", PyVal.str ("Unknown role: " ++ role)) ]
  | Option.some acc =>
      data.filter (fun p => acc.allowed.contains p.1)

/-- Inbound message fields read by PrivacyGuardAgent.process_message
(after the .get defaulting of absent keys). -/
structure PgMessage where
  from_ : String
  data : PyRecord
  patient_id : String

/-- Response of PrivacyGuardAgent.process_message together with the audit_log
calls it makes. `redacted_fields` is a Python set difference; we fix the
(unspecified) set iteration order to input key order. -/
structure PgResult where
  status : String
  data : PyRecord
  redacted_fields : List String
  role : String
  audits : List AuditCall

/-- PrivacyGuardAgent.process_message. -/
def process_message (msg : PgMessage) : PgResult :=
  let requesting_role := get_role msg.from_
  let filtered_data := filter_by_role msg.data requesting_role
  let filtered_keys := filtered_data.map Prod.fst
  let redacted := (msg.data.map Prod.fst).filter (fun k => !(filtered_keys.contains k))
  { status := "success",
    data := filtered_data,
    redacted_fields := redacted,
    role := requesting_role,
    audits := [ { action := "privacy_filter_applied",
                  patient_id := msg.patient_id,
                  details := "Role: " ++ requesting_role ++ ", Fields redacted: "
                              ++ toString redacted.length } ] }

end PrivacyGuard

/-! ## Access Control (agents/access_control_agent.py) -/

namespace AccessControl

/-- One row of AccessControlAgent.ROLE_PERMISSIONS. -/
structure RolePermissions where
  read_fields : List String
  write_fields : List String
  actions : List String
deriving DecidableEq

/-- AccessControlAgent.ROLE_PERMISSIONS. -/
def ROLE_PERMISSIONS : List (String × RolePermissions) :=
  [ ("receptionist",
      { read_fields := ["patient_id", "name", "dob", "contact", "appointment_time"],
        write_fields := ["contact", "appointment_time"],
        actions := ["create_patient", "update_appointment", "read_patient_basics",
                    "schedule_doctor", "patient_intake"] }),
    ("doctor",
      { read_fields := ["patient_id", "name", "dob", "contact",
                        "diagnosis", "medications", "lab_results", "imaging_results",
                        "notes", "psychiatric_history", "substance_abuse_history",
                        "allergies", "medical_history"],
        write_fields := ["diagnosis", "medications", "notes", "treatment_plan", "prescription"],
        actions := ["retrieve_patient", "write_diagnosis", "order_lab", "order_imaging",
                    "prescribe_medication", "update_medical_record", "discharge_patient"] }),
    ("lab_tech",
      { read_fields := ["patient_id", "name", "dob", "test_order"],
        write_fields := ["lab_results"],
        actions := ["retrieve_test_order", "submit_lab_results", "update_test_status"] }),
    ("billing",
      { read_fields := ["patient_id", "name", "dob", "ssn",
                        "insurance_details", "charges", "address", "account_number"],
        write_fields := ["charges", "insurance_status", "payment_status"],
        actions := ["generate_bill", "update_insurance", "process_payment",
                    "retrieve_billing_info"] }),
    ("ehr_system",
      { read_fields := ["*"], write_fields := ["*"], actions := ["*"] }) ]

/-- Table lookup; the empty default mirrors get_role_permissions_summary and is
unreachable on the paths _validate_access takes (role is known there). -/
def rolePerms (role : String) : RolePermissions :=
  (ROLE_PERMISSIONS.lookup role).getD { read_fields := [], write_fields := [], actions := [] }

/-- AccessControlAgent._get_role. -/
def get_role (agent_id : String) : String :=
  (List.lookup agent_id
    [ ("receptionist_agent", "receptionist"),
      ("receptionist_agent_1", "receptionist"),
      ("doctor_agent", "doctor"),
      ("doctor_agent_1", "doctor"),
      ("lab_agent", "lab_tech"),
      ("lab_agent_1", "lab_tech"),
      ("billing_agent", "billing"),
      ("billing_agent_1", "billing"),
      ("ehr_agent", "ehr_system"),
      ("ehr_agent_1", "ehr_system") ]).getD "unknown"

/-- Denial record appended to denied_attempts and forwarded to the IDS agent. -/
structure DenialRecord where
  timestamp : String
  agent : String
  action : String
  patient_id : String
  reason : String
deriving DecidableEq

/-- Response value of _validate_access / _deny_access. -/
inductive AcResponse where
  | approvedR (role : String) (allowed_fields allowed_actions : List String)
  | deniedR (reason : String) (severity : String)
deriving DecidableEq

/-- Result of one _validate_access call: the response, the audit_log calls
made, the denial notifications sent to the IDS agent, and the updated
denied_attempts list. -/
structure AcOutcome where
  resp : AcResponse
  audits : List AuditCall
  ids_notifications : List DenialRecord
  denied_attempts : List DenialRecord

/-- Arguments of _validate_access taken out of the message
(after the .get defaulting of absent keys). -/
structure AcRequest where
  from_ : String
  requested_action : String
  fields : List String
  patient_id : String

/-- AccessControlAgent._deny_access: appends a denial record, writes one
access_denied audit entry and notifies the IDS agent. -/
def deny_access (st : List DenialRecord) (agent action patient_id reason now : String) :
    AcOutcome :=
  let denial_record : DenialRecord :=
    { timestamp := now, agent := agent, action := action,
      patient_id := patient_id, reason := reason }
  { resp := AcResponse.deniedR reason "SECURITY_ALERT",
    audits := [ { action := "access_denied",
                  patient_id := patient_id,
                  details := "SECURITY ALERT - Agent: " ++ agent ++ ", Action: " ++ action
                              ++ ", Reason: " ++ reason } ],
    ids_notifications := [denial_record],
    denied_attempts := st ++ [denial_record] }

/-- AccessControlAgent._validate_access. `now` stands for the wall-clock
timestamp a denial record receives. -/
def validate_access (st : List DenialRecord) (req : AcRequest) (now : String) : AcOutcome :=
  let requesting_role := get_role req.from_
  if requesting_role = "unknown" then
    deny_access st req.from_ req.requested_action req.patient_id
      ("Unknown agent: " ++ req.from_) now
  else if requesting_role = "ehr_system" then
    { resp := AcResponse.approvedR requesting_role ["*"] ["*"],
      audits := [], ids_notifications := [], denied_attempts := st }
  else
    let allowed_actions := (rolePerms requesting_role).actions
    if !(allowed_actions.contains req.requested_action) then
      deny_access st req.from_ req.requested_action req.patient_id
        ("Action " ++ req.requested_action ++ " not permitted for role " ++ requesting_role) now
    else
      let allowed_read_fields := (rolePerms requesting_role).read_fields
      let unauthorized_fields := req.fields.filter (fun f => !(allowed_read_fields.contains f))
      if !req.fields.isEmpty && !unauthorized_fields.isEmpty then
        deny_access st req.from_ req.requested_action req.patient_id
          ("Cannot access fields: " ++ toString unauthorized_fields) now
      else
        { resp := AcResponse.approvedR requesting_role allowed_read_fields allowed_actions,
          audits := [ { action := "access_granted",
                        patient_id := req.patient_id,
                        details := "Agent: " ++ req.from_ ++ ", Role: " ++ requesting_role
                                    ++ ", Action: " ++ req.requested_action } ],
          ids_notifications := [], denied_attempts := st }

/-- Response of _check_write_permission. -/
structure WriteCheck where
  status : String
  can_write : Bool
deriving DecidableEq

/-- AccessControlAgent._check_write_permission (side-effect-free query). -/
def check_write_permission (from_ field : String) : WriteCheck :=
  let role := get_role from_
  if role = "unknown" then { status := "denied", can_write := false }
  else if role = "ehr_system" then { status := "approved", can_write := true }
  else
    let can_write := (rolePerms role).write_fields.contains field
    { status := if can_write then "approved" else "denied", can_write := can_write }

end AccessControl

/-! ## Intrusion Detection System (agents/ids_agent.py) -/

namespace IDS

/-- Alert severity levels; the code stores them as the strings
LOW, MEDIUM, HIGH, CRITICAL. -/
inductive Severity where
  | LOW
  | MEDIUM
  | HIGH
  | CRITICAL
deriving DecidableEq

/-- Position in severity_order = [LOW, MEDIUM, HIGH, CRITICAL]. -/
def sevIdx : Severity → Nat
  | Severity.LOW => 0
  | Severity.MEDIUM => 1
  | Severity.HIGH => 2
  | Severity.CRITICAL => 3

/-- One anomaly finding ({type, severity, details} dict). -/
structure Finding where
  ftype : String
  severity : Severity
  details : String
deriving DecidableEq

/-- A successful access record kept in access_history. -/
structure AccessRec where
  agent : String
  action : String
  patient_id : String
  timestamp : Int
deriving DecidableEq

/-- Incoming payload of a log_denied_attempt message
(after the .get defaulting of absent keys). -/
structure DenialMsg where
  agent : String
  action : String
  reason : String
  patient_id : String
  timestamp : Int
deriving DecidableEq

/-- A denial record kept in denied_attempts (patient_id is not stored). -/
structure DenialRec where
  agent : String
  action : String
  reason : String
  timestamp : Int
deriving DecidableEq

/-- A generated alert. -/
structure Alert where
  alert_id : String
  timestamp : Int
  severity : Severity
  agent : String
  action : String
  patient_id : String
  anomalies : List Finding
  recommended_action : String
deriving DecidableEq

/-- IDSAgent mutable state: per-agent defaultdict timelines, alert list and
per-severity alert counters. -/
structure IdsState where
  access_history : String → List AccessRec
  denied_attempts : String → List DenialRec
  alerts : List Alert
  alert_counts : Severity → Nat

/-- Response values of _log_access_attempt / _log_denied_attempt /
_generate_alert (the status field of the returned dict, with the alert
payload where present). -/
inductive IdsResp where
  | normalR
  | loggedR
  | alertR (severity : Severity) (alert_id : String) (anomalies : List Finding)
deriving DecidableEq

/-- THRESHOLDS max_requests_per_minute. -/
def max_requests_per_minute : Nat := 10

/-- THRESHOLDS max_requests_per_hour. -/
def max_requests_per_hour : Nat := 100

/-- THRESHOLDS max_denied_attempts. -/
def max_denied_attempts : Nat := 3

/-- THRESHOLDS max_unique_patients_per_hour. -/
def max_unique_patients_per_hour : Nat := 20

/-- Hour of day of a timestamp (seconds from a midnight epoch). -/
def hourOf (t : Int) : Int := t / 3600 % 24

/-- IDSAgent._is_unusual_time: outside the 7..20 working window. -/
def is_unusual_time (t : Int) : Bool :=
  hourOf t < 7 || hourOf t ≥ 20

/-- IDSAgent._count_recent_requests: accesses of the agent strictly after
now - minutes*60. -/
def count_recent_requests (st : IdsState) (agent : String) (minutes now : Int) : Nat :=
  ((st.access_history agent).filter (fun a => decide (now - minutes * 60 < a.timestamp))).length

/-- IDSAgent._count_recent_denials. -/
def count_recent_denials (st : IdsState) (agent : String) (minutes now : Int) : Nat :=
  ((st.denied_attempts agent).filter (fun d => decide (now - minutes * 60 < d.timestamp))).length

/-- IDSAgent._count_unique_patients: distinct patient ids in the window. -/
def count_unique_patients (st : IdsState) (agent : String) (minutes now : Int) : Nat :=
  (((st.access_history agent).filter
      (fun a => decide (now - minutes * 60 < a.timestamp))).map
    (fun a => a.patient_id)).dedup.length

/-- Python max(severities, key=severity_order.index) folded left to right,
keeping the first maximum. -/
def pySevMax (h : Severity) (t : List Severity) : Severity :=
  t.foldl (fun acc s => if sevIdx acc < sevIdx s then s else acc) h

/-- IDSAgent._get_recommended_action. -/
def get_recommended_action : Severity → String
  | Severity.LOW => "Monitor agent activity"
  | Severity.MEDIUM => "Review agent access patterns with supervisor"
  | Severity.HIGH => "Temporarily restrict agent access and investigate"
  | Severity.CRITICAL => "IMMEDIATELY suspend agent access and launch investigation"

/-- Zero-padded 4-digit counter of the ALERT_%04d id format. -/
def pad4 (n : Nat) : String :=
  let s := toString n
  if 4 ≤ s.length then s else String.mk (List.replicate (4 - s.length) '0') ++ s

/-- The alert dict built by IDSAgent._generate_alert. The anomalies list is
non-empty at every call site; it is passed as head plus tail because Python
max raises on an empty sequence. -/
def mkAlert (st : IdsState) (agent action patient_id : String)
    (a0 : Finding) (rest : List Finding) (now : Int) : Alert :=
  { alert_id := "ALERT_" ++ pad4 (st.alerts.length + 1),
    timestamp := now,
    severity := pySevMax a0.severity (rest.map (fun a => a.severity)),
    agent := agent,
    action := action,
    patient_id := patient_id,
    anomalies := a0 :: rest,
    recommended_action :=
      get_recommended_action (pySevMax a0.severity (rest.map (fun a => a.severity))) }

/-- State update of _generate_alert: append the alert and bump the counter of
its severity (access and denial timelines are untouched). -/
def storeAlert (st : IdsState) (alert : Alert) : IdsState :=
  { st with
    alerts := st.alerts ++ [alert],
    alert_counts := fun s =>
      if s = alert.severity then st.alert_counts s + 1 else st.alert_counts s }

/-- IDSAgent._generate_alert: store the alert, bump the severity counter,
write one security_alert_generated audit entry, return the alert response. -/
def generate_alert (st : IdsState) (agent action patient_id : String)
    (a0 : Finding) (rest : List Finding) (now : Int) :
    IdsState × IdsResp × List AuditCall :=
  ( storeAlert st (mkAlert st agent action patient_id a0 rest now),
    IdsResp.alertR (mkAlert st agent action patient_id a0 rest now).severity
      (mkAlert st agent action patient_id a0 rest now).alert_id (a0 :: rest),
    [ { action := "security_alert_generated",
        patient_id := patient_id,
        details := "ALERT - Agent: " ++ agent
                    ++ ", Anomalies: " ++ toString (a0 :: rest).length } ] )

/-- Finding raised by detection check 1 of _log_access_attempt. -/
def minuteFinding (n : Nat) : Finding :=
  { ftype := "HIGH_REQUEST_RATE_MINUTE", severity := Severity.HIGH,
    details := toString n ++ " requests in 1 minute (threshold: "
                ++ toString max_requests_per_minute ++ ")" }

/-- Finding raised by detection check 2 of _log_access_attempt. -/
def hourFinding (n : Nat) : Finding :=
  { ftype := "HIGH_REQUEST_RATE_HOUR", severity := Severity.MEDIUM,
    details := toString n ++ " requests in 1 hour (threshold: "
                ++ toString max_requests_per_hour ++ ")" }

/-- Finding raised by detection check 3 of _log_access_attempt. -/
def unusualTimeFinding : Finding :=
  { ftype := "UNUSUAL_ACCESS_TIME", severity := Severity.MEDIUM,
    details := "Access outside normal hours 7am-8pm" }

/-- Finding raised by detection check 4 of _log_access_attempt. -/
def excessiveFinding (n : Nat) : Finding :=
  { ftype := "EXCESSIVE_PATIENT_ACCESS", severity := Severity.HIGH,
    details := toString n ++ " different patients accessed in 1 hour (threshold: "
                ++ toString max_unique_patients_per_hour ++ ")" }

/-- Finding raised by the denial check of _log_denied_attempt. -/
def deniedFinding (n : Nat) : Finding :=
  { ftype := "REPEATED_DENIED_ATTEMPTS", severity := Severity.CRITICAL,
    details := toString n ++ " denied attempts in 10 minutes (threshold: "
                ++ toString max_denied_attempts ++ ")" }

/-- State update of _log_access_attempt: append the record to the agent
timeline of access_history. -/
def appendAccess (st : IdsState) (d : AccessRec) : IdsState :=
  { st with
    access_history := fun a =>
      if a = d.agent then st.access_history d.agent ++ [d] else st.access_history a }

/-- The denial record _log_denied_attempt stores (patient_id is dropped). -/
def mkDenial (d : DenialMsg) : DenialRec :=
  { agent := d.agent, action := d.action, reason := d.reason, timestamp := d.timestamp }

/-- State update of _log_denied_attempt: append the denial record to the
agent timeline of denied_attempts. -/
def appendDenial (st : IdsState) (r : DenialRec) : IdsState :=
  { st with
    denied_attempts := fun a =>
      if a = r.agent then st.denied_attempts r.agent ++ [r] else st.denied_attempts a }

/-- The four detection checks of _log_access_attempt, run on the state that
already contains the new access record (the anomalies list in source order). -/
def accessAnomalies (st1 : IdsState) (d : AccessRec) (now : Int) : List Finding :=
  (if max_requests_per_minute < count_recent_requests st1 d.agent 1 now then
    [minuteFinding (count_recent_requests st1 d.agent 1 now)] else []) ++
  (if max_requests_per_hour < count_recent_requests st1 d.agent 60 now then
    [hourFinding (count_recent_requests st1 d.agent 60 now)] else []) ++
  (if is_unusual_time d.timestamp then [unusualTimeFinding] else []) ++
  (if max_unique_patients_per_hour < count_unique_patients st1 d.agent 60 now then
    [excessiveFinding (count_unique_patients st1 d.agent 60 now)] else [])

/-- IDSAgent._log_access_attempt: append the record, run the checks, and
generate an alert when any fired. `now` is the evaluation wall-clock time
used by the sliding-window counters. -/
def log_access_attempt (st : IdsState) (d : AccessRec) (now : Int) :
    IdsState × IdsResp × List AuditCall :=
  match accessAnomalies (appendAccess st d) d now with
  | [] => (appendAccess st d, IdsResp.normalR, [])
  | a :: rest =>
      generate_alert (appendAccess st d) d.agent d.action d.patient_id a rest now

/-- IDSAgent._log_denied_attempt: append the denial, and alert when the
trailing 10-minute denial count reaches the threshold. -/
def log_denied_attempt (st : IdsState) (d : DenialMsg) (now : Int) :
    IdsState × IdsResp × List AuditCall :=
  if max_denied_attempts ≤ count_recent_denials (appendDenial st (mkDenial d)) d.agent 10 now then
    generate_alert (appendDenial st (mkDenial d)) d.agent d.action d.patient_id
      (deniedFinding (count_recent_denials (appendDenial st (mkDenial d)) d.agent 10 now))
      [] now
  else
    (appendDenial st (mkDenial d), IdsResp.loggedR, [])

/-- Process a sequence of log_access events, each with its own evaluation
time, threading the state. -/
def runAccessLog (st : IdsState) : List (AccessRec × Int) → IdsState × List IdsResp
  | [] => (st, [])
  | (d, n) :: rest =>
      let step := log_access_attempt st d n
      let tail := runAccessLog step.1 rest
      (tail.1, step.2.1 :: tail.2)

/-- Findings carried by a response (empty unless it is an alert). -/
def respFindings : IdsResp → List Finding
  | IdsResp.alertR _ _ a => a
  | _ => []

/-- Severity carried by a response (present only on an alert). -/
def respSeverity : IdsResp → Option Severity
  | IdsResp.alertR s _ _ => Option.some s
  | _ => Option.none

/-- Whether the response is an alert. -/
def isAlertResp : IdsResp → Bool
  | IdsResp.alertR _ _ _ => true
  | _ => false

/-- Whether the response carries a HIGH_REQUEST_RATE_MINUTE finding of
severity HIGH. -/
def hasMinuteFinding (r : IdsResp) : Bool :=
  (respFindings r).any
    (fun f => f.ftype == "HIGH_REQUEST_RATE_MINUTE" && f.severity == Severity.HIGH)

/-- Whether the response carries a REPEATED_DENIED_ATTEMPTS finding. -/
def hasDenialFinding (r : IdsResp) : Bool :=
  (respFindings r).any (fun f => f.ftype == "REPEATED_DENIED_ATTEMPTS")

/-- Whether a finding list is free of HIGH_REQUEST_RATE_MINUTE findings. -/
def noMinuteList (l : List Finding) : Bool :=
  l.all (fun f => !(f.ftype == "HIGH_REQUEST_RATE_MINUTE" && f.severity == Severity.HIGH))

/-- The initial IDSAgent state: empty defaultdict timelines, no alerts. -/
def initState : IdsState :=
  { access_history := fun _ => [],
    denied_attempts := fun _ => [],
    alerts := [],
    alert_counts := fun _ => 0 }

end IDS

/-! ## Audit Logger (agents/audit_logger_agent.py) -/

namespace AuditLogger

/-- One row of the audit_logs table as returned by _query_logs (timestamp
already converted to its ISO string; ISO-8601 strings compare like the
underlying instants). -/
structure AuditEntry where
  log_id : Nat
  timestamp : String
  agent_id : String
  action : String
  patient_id : String
  category : String
  severity : String
  result : String
  details : String
deriving DecidableEq

/-- Filters accepted by _query_logs. The SQL "timestamp > NOW() - INTERVAL
time_range_minutes" comparison is carried as an optional precomputed cutoff
timestamp string. -/
structure QueryFilters where
  patient_id : Option String
  agent_id : Option String
  action : Option String
  category : Option String
  severity : Option String
  cutoff : Option String
  limit : Option Nat
deriving DecidableEq

/-- The conjunction of WHERE clauses _query_logs builds. -/
def matchesFilters (q : QueryFilters) (e : AuditEntry) : Bool :=
  (match q.patient_id with | Option.some p => e.patient_id == p | Option.none => true) &&
  (match q.agent_id with | Option.some a => e.agent_id == a | Option.none => true) &&
  (match q.action with | Option.some a => e.action == a | Option.none => true) &&
  (match q.category with | Option.some c => e.category == c | Option.none => true) &&
  (match q.severity with | Option.some s => e.severity == s | Option.none => true) &&
  (match q.cutoff with | Option.some c => decide (c < e.timestamp) | Option.none => true)

/-- Insert into a list kept sorted by descending timestamp (ORDER BY
timestamp DESC). -/
def insertDesc (e : AuditEntry) : List AuditEntry → List AuditEntry
  | [] => [e]
  | x :: xs => if e.timestamp ≤ x.timestamp then x :: insertDesc e xs else e :: x :: xs

/-- AuditLoggerAgent._query_logs over the table contents: WHERE, ORDER BY
timestamp DESC, LIMIT (default 100). -/
def query_logs (q : QueryFilters) (table : List AuditEntry) : List AuditEntry :=
  (((table.filter (matchesFilters q)).foldr insertDesc []).take (q.limit.getD 100))

/-- CSV column headers of _convert_to_csv. -/
def csvHeaders : List String :=
  ["log_id", "timestamp", "agent_id", "action", "patient_id",
   "category", "severity", "result", "details"]

/-- details.replace of commas by semicolons. -/
def escapeCommas (s : String) : String :=
  String.mk (s.data.map (fun c => if c = ',' then ';' else c))

/-- The nine column values of one CSV row. -/
def csvRow (e : AuditEntry) : List String :=
  [toString e.log_id, e.timestamp, e.agent_id, e.action, e.patient_id,
   e.category, e.severity, e.result, escapeCommas e.details]

/-- Python str.join with a comma separator. -/
def joinComma : List String → String
  | [] => ""
  | [x] => x
  | x :: y :: t => x ++ "," ++ joinComma (y :: t)

/-- Python str.join with a newline separator. -/
def joinNewline : List String → String
  | [] => ""
  | [x] => x
  | x :: y :: t => x ++ "\n" ++ joinNewline (y :: t)

/-- The csv_lines list built by _convert_to_csv on a non-empty log list:
the joined header row followed by one joined row per entry. -/
def csvLines (logs : List AuditEntry) : List String :=
  joinComma csvHeaders :: logs.map (fun e => joinComma (csvRow e))

/-- AuditLoggerAgent._convert_to_csv. -/
def convert_to_csv (logs : List AuditEntry) : String :=
  if logs.isEmpty then "No logs to export"
  else joinNewline (csvLines logs)

/-- Responses of _export_logs. -/
inductive ExportResp where
  | jsonR (logs : List AuditEntry)
  | csvR (data : String)
  | errorR (message : String)
deriving DecidableEq

/-- AuditLoggerAgent._export_logs: query with the given filters, then render
in the requested format. -/
def export_logs (format : String) (q : QueryFilters) (table : List AuditEntry) : ExportResp :=
  let logs := query_logs q table
  if format = "json" then ExportResp.jsonR logs
  else if format = "csv" then ExportResp.csvR (convert_to_csv logs)
  else ExportResp.errorR ("Unsupported export format: " ++ format)

/-- The entry list of a json export response. -/
def jsonLogs : ExportResp → Option (List AuditEntry)
  | ExportResp.jsonR l => Option.some l
  | _ => Option.none

/-- Whether an export response has error status. -/
def isErrorResp : ExportResp → Bool
  | ExportResp.errorR _ => true
  | _ => false

/-- Number of commas in a string. -/
def countComma (s : String) : Nat := s.data.count ','

/-- The all-absent filter set (export with an empty query dict). -/
def emptyFilters : QueryFilters :=
  { patient_id := Option.none, agent_id := Option.none, action := Option.none,
    category := Option.none, severity := Option.none, cutoff := Option.none,
    limit := Option.none }

end AuditLogger

/-! ## Message bus (core/event_queue.py and core/orchestrator.py) -/

namespace Bus

/-- A message envelope as read by route_if_possible and dispatch_message;
`to` is absent (None) or a target id, the payload stands for the rest of the
dict. -/
structure BusMessage where
  from_ : String
  to_ : Option String
  action : String
  payload : String
deriving DecidableEq

/-- A registered agent: its process_message handler, which either returns a
response payload or raises (Except.error carries str(exc)). -/
structure BusAgent where
  handler : BusMessage → Except String String

/-- Orchestrator state: the queue subscriber map and the orchestrator agent
registry. register_agent enters an agent in both. -/
structure OrchState where
  subscribers : List (String × BusAgent)
  agents : List (String × BusAgent)

/-- Orchestrator.register_agent: binds the id in the agent registry and in
the queue subscriber map (assoc-list cons, so the newest binding wins). -/
def register_agent (o : OrchState) (agent_id : String) (a : BusAgent) : OrchState :=
  { subscribers := (agent_id, a) :: o.subscribers,
    agents := (agent_id, a) :: o.agents }

/-- EventQueue.route_if_possible: returns whether the message was handled,
plus how many times the target handler was invoked. A raising handler is
caught and reported as not handled. -/
def route_if_possible (o : OrchState) (m : BusMessage) : Bool × Nat :=
  match m.to_ with
  | Option.none => (false, 0)
  | Option.some target =>
    match o.subscribers.lookup target with
    | Option.none => (false, 0)
    | Option.some recipient =>
      match recipient.handler m with
      | Except.ok _ => (true, 1)
      | Except.error _ => (false, 1)

/-- Outcome of Orchestrator.dispatch_message: None when the queue routed the
message inline, the agent response, or an error-status envelope. -/
inductive DispatchOutcome where
  | handledInline
  | response (r : String)
  | errorResp (message : String)
deriving DecidableEq

/-- Orchestrator.dispatch_message, paired with the total number of times the
target agent handler ran. An exception in the handler is caught at this
boundary and becomes an error-status response; the function is total, so no
exception reaches the caller. A falsy target (absent or empty) yields the
missing-to error. -/
def dispatch_message (o : OrchState) (m : BusMessage) : DispatchOutcome × Nat :=
  let routed := route_if_possible o m
  if routed.1 then (DispatchOutcome.handledInline, routed.2)
  else
    match m.to_ with
    | Option.none => (DispatchOutcome.errorResp "Message missing to field", routed.2)
    | Option.some target =>
      if target = "" then (DispatchOutcome.errorResp "Message missing to field", routed.2)
      else
        match o.agents.lookup target with
        | Option.none =>
            (DispatchOutcome.errorResp ("No agent " ++ target), routed.2)
        | Option.some agent =>
          match agent.handler m with
          | Except.ok r => (DispatchOutcome.response r, routed.2 + 1)
          | Except.error exc => (DispatchOutcome.errorResp exc, routed.2 + 1)

end Bus

/-! ## Helper lemmas -/

/-- Filtering by an allowlist removes every binding of a key outside it. -/
theorem lookup_filter_not_allowed (allowed : List String) (F : String)
    (hF : allowed.contains F = false) :
    ∀ l : PyRecord, (l.filter (fun p => allowed.contains p.1)).lookup F = Option.none := by
  intro l
  induction l with
  | nil => rfl
  | cons p t ih =>
    obtain ⟨k, v⟩ := p
    rw [List.filter_cons]
    by_cases hk : allowed.contains k
    · have hne : (F == k) = false := by
        apply beq_eq_false_iff_ne.mpr
        intro h
        rw [h, hk] at hF
        exact absurd hF (by simp)
      simp only [hk, if_pos, List.lookup, hne, ih]
    · simp only [hk, Bool.false_eq_true, if_neg, not_false_iff]
      exact ih

/-! ## Claim theorems: privacy filter and authorization engine -/

/-- C1: Privacy Filter default-deny. For every requesting actor whose role is
in the role table, every field outside that role's read allowlist is absent
from the filtered output; when the actor resolves to a role outside the table
(the unknown role), the output is exactly the minimal record of the subject
identifier plus an error marker and contains none of the original fields. -/
theorem privacy_default_deny (msg : PrivacyGuard.PgMessage) (F : String) :
    (∀ acc : PrivacyGuard.RoleFieldAccess,
      PrivacyGuard.ROLE_FIELD_ACCESS.lookup (PrivacyGuard.get_role msg.from_) =
        Option.some acc →
      acc.allowed.contains F = false →
      ((PrivacyGuard.process_message msg).data).lookup F = Option.none) ∧
    (PrivacyGuard.ROLE_FIELD_ACCESS.lookup (PrivacyGuard.get_role msg.from_) =
        Option.none →
      (PrivacyGuard.process_message msg).data =
        [ ("patient_id", pyGet msg.data "patient_id"),
          ("error", PyVal.str ("Unknown role: " ++ PrivacyGuard.get_role msg.from_)) ]) := by
  constructor
  · intro acc hacc hF
    show (PrivacyGuard.filter_by_role msg.data (PrivacyGuard.get_role msg.from_)).lookup F =
      Option.none
    unfold PrivacyGuard.filter_by_role
    rw [hacc]
    exact lookup_filter_not_allowed acc.allowed F hF msg.data
  · intro hnone
    show PrivacyGuard.filter_by_role msg.data (PrivacyGuard.get_role msg.from_) = _
    unfold PrivacyGuard.filter_by_role
    rw [hnone]

/-- C1 witness: a receptionist-role request never yields the ssn field, and an
unregistered actor receives only the minimal record. -/
theorem privacy_default_deny_witness :
    ((PrivacyGuard.process_message
        ⟨"receptionist_agent",
         [("patient_id", PyVal.str "P1"), ("ssn", PyVal.str "123-45-6789")],
         "P1"⟩).data).lookup "ssn" = Option.none ∧
    (PrivacyGuard.process_message
        ⟨"outside_attacker",
         [("patient_id", PyVal.str "P1"), ("ssn", PyVal.str "123-45-6789")],
         "P1"⟩).data =
      [("patient_id", PyVal.str "P1"), ("error", PyVal.str "Unknown role: unknown")] :=
  ⟨(privacy_default_deny
      ⟨"receptionist_agent",
       [("patient_id", PyVal.str "P1"), ("ssn", PyVal.str "123-45-6789")],
       "P1"⟩ "ssn").1
      { allowed := ["patient_id", "name", "dob", "contact", "appointment_time", "created_at"],
        blocked := ["diagnosis", "medications", "lab_results", "imaging_results",
                    "ssn", "insurance_details", "psychiatric_history", "substance_abuse_history"] }
      (by decide) (by decide),
   (privacy_default_deny
      ⟨"outside_attacker",
       [("patient_id", PyVal.str "P1"), ("ssn", PyVal.str "123-45-6789")],
       "P1"⟩ "ssn").2 (by decide)⟩

/-- C2 (amended): one call to _validate_access emits exactly one audit entry
whenever the actor does not resolve to the administrative ehr_system role;
when it does, the bypass emits no audit entry at all. -/
theorem audit_completeness_amended (st : List AccessControl.DenialRecord)
    (req : AccessControl.AcRequest) (now : String) :
    (AccessControl.validate_access st req now).audits.length =
      (if AccessControl.get_role req.from_ = "ehr_system" then 0 else 1) := by
  unfold AccessControl.validate_access
  by_cases h1 : AccessControl.get_role req.from_ = "unknown"
  · rw [if_pos h1, h1]
    simp [AccessControl.deny_access]
  · rw [if_neg h1]
    by_cases h2 : AccessControl.get_role req.from_ = "ehr_system"
    · rw [if_pos h2, if_pos h2]
      rfl
    · rw [if_neg h2, if_neg h2]
      by_cases h3 : ((AccessControl.rolePerms (AccessControl.get_role req.from_)).actions.contains
          req.requested_action) = true
      · rw [if_neg (by simpa using h3)]
        dsimp only
        split
        · simp [AccessControl.deny_access]
        · rfl
      · rw [if_pos (by simpa using h3)]
        simp [AccessControl.deny_access]

/-- C2 counterexample: the claim "every validate_access decision emits exactly
one audit entry" fails for the administrative actor: the ehr_agent request is
decided (approved) yet emits zero audit entries. -/
theorem audit_completeness_counterexample :
    (AccessControl.validate_access []
        ⟨"ehr_agent", "retrieve_patient", [], "P001"⟩ "t0").audits = [] ∧
    (AccessControl.validate_access []
        ⟨"ehr_agent", "retrieve_patient", [], "P001"⟩ "t0").resp =
      AccessControl.AcResponse.approvedR "ehr_system" ["*"] ["*"] := by
  constructor <;> decide

/-- C3: administrative bypass. An actor resolving to the ehr_system role is
approved by _validate_access with wildcard allowed_fields and allowed_actions
for every requested action and field list, and _check_write_permission grants
can_write for every field. -/
theorem admin_bypass (st : List AccessControl.DenialRecord)
    (req : AccessControl.AcRequest) (now : String) (field : String)
    (h : AccessControl.get_role req.from_ = "ehr_system") :
    (AccessControl.validate_access st req now).resp =
      AccessControl.AcResponse.approvedR "ehr_system" ["*"] ["*"] ∧
    AccessControl.check_write_permission req.from_ field =
      { status := "approved", can_write := true } := by
  constructor
  · unfold AccessControl.validate_access
    rw [h]
    rfl
  · unfold AccessControl.check_write_permission
    rw [h]
    rfl

/-- C3 witness: the ehr_agent actor is approved for an arbitrary action and
fields, and may write an arbitrary field. -/
theorem admin_bypass_witness :
    (AccessControl.validate_access []
        ⟨"ehr_agent", "delete_everything", ["ssn", "diagnosis"], "P001"⟩ "t0").resp =
      AccessControl.AcResponse.approvedR "ehr_system" ["*"] ["*"] ∧
    AccessControl.check_write_permission "ehr_agent" "ssn" =
      { status := "approved", can_write := true } :=
  admin_bypass [] ⟨"ehr_agent", "delete_everything", ["ssn", "diagnosis"], "P001"⟩
    "t0" "ssn" (by decide)

/-! ## IDS lemmas -/

/-- The state component of _log_access_attempt extends access_history exactly
by the new record on the agent timeline. -/
theorem log_access_fst_history (st : IDS.IdsState) (d : IDS.AccessRec) (now : Int)
    (a : String) :
    ((IDS.log_access_attempt st d now).1).access_history a =
      if a = d.agent then st.access_history d.agent ++ [d] else st.access_history a := by
  unfold IDS.log_access_attempt
  split <;> rfl

/-- Anomaly lists produced while the minute-rate check does not fire contain
no HIGH_REQUEST_RATE_MINUTE finding. -/
theorem noMinute_accessAnomalies (st1 : IDS.IdsState) (d : IDS.AccessRec) (now : Int)
    (h : ¬(IDS.max_requests_per_minute < IDS.count_recent_requests st1 d.agent 1 now)) :
    IDS.noMinuteList (IDS.accessAnomalies st1 d now) = true := by
  unfold IDS.accessAnomalies
  rw [if_neg h]
  split_ifs <;> rfl

/-- An alert whose findings avoid the minute-rate type has no minute-rate
finding in the response. -/
theorem hasMinute_false_of_noMinute (l : List IDS.Finding) (h : IDS.noMinuteList l = true)
    (sev : IDS.Severity) (id : String) :
    IDS.hasMinuteFinding (IDS.IdsResp.alertR sev id l) = false := by
  unfold IDS.noMinuteList at h
  rw [List.all_eq_true] at h
  apply Bool.eq_false_iff.mpr
  intro hc
  unfold IDS.hasMinuteFinding IDS.respFindings at hc
  rw [List.any_eq_true] at hc
  obtain ⟨f, hf, hp⟩ := hc
  have hnf := h f hf
  rw [hp] at hnf
  simp at hnf

/-- When the agent timeline (including the new record) holds at most the
minute threshold many records, _log_access_attempt raises no minute-rate
finding. -/
theorem log_access_no_minute (st : IDS.IdsState) (d : IDS.AccessRec) (now : Int)
    (h : (st.access_history d.agent).length + 1 ≤ IDS.max_requests_per_minute) :
    IDS.hasMinuteFinding (IDS.log_access_attempt st d now).2.1 = false := by
  have happ : (IDS.appendAccess st d).access_history d.agent =
      st.access_history d.agent ++ [d] := by
    simp [IDS.appendAccess]
  have hcount : IDS.count_recent_requests (IDS.appendAccess st d) d.agent 1 now ≤
      (st.access_history d.agent).length + 1 := by
    unfold IDS.count_recent_requests
    rw [happ]
    calc (List.filter _ (st.access_history d.agent ++ [d])).length
        ≤ (st.access_history d.agent ++ [d]).length := List.length_filter_le _ _
      _ = (st.access_history d.agent).length + 1 := by simp
  have hno : ¬(IDS.max_requests_per_minute <
      IDS.count_recent_requests (IDS.appendAccess st d) d.agent 1 now) :=
    Nat.not_lt.mpr (hcount.trans h)
  have hN := noMinute_accessAnomalies (IDS.appendAccess st d) d now hno
  unfold IDS.log_access_attempt
  cases hA : IDS.accessAnomalies (IDS.appendAccess st d) d now with
  | nil => rfl
  | cons a rest =>
    rw [hA] at hN
    exact hasMinute_false_of_noMinute (a :: rest) hN _ _

/-- History of the final state of a run: the original timeline followed by
the processed records of that agent, in processing order. -/
theorem runAccessLog_fst_history (l : List (IDS.AccessRec × Int)) :
    ∀ (st : IDS.IdsState) (a : String),
      ((IDS.runAccessLog st l).1).access_history a =
        st.access_history a ++ (l.map Prod.fst).filter (fun r => r.agent == a) := by
  induction l with
  | nil => intro st a; simp [IDS.runAccessLog]
  | cons p t ih =>
    intro st a
    obtain ⟨d, n⟩ := p
    simp only [IDS.runAccessLog]
    rw [ih ((IDS.log_access_attempt st d n).1) a]
    rw [log_access_fst_history]
    rw [List.map_cons, List.filter_cons]
    by_cases hag : a = d.agent
    · have hbeq : (d.agent == a) = true := by
        rw [hag]
        exact beq_self_eq_true d.agent
      rw [if_pos hag, hbeq, if_pos rfl, hag]
      simp
    · have hbeq : (d.agent == a) = false :=
        beq_eq_false_iff_ne.mpr (fun h => hag h.symm)
      rw [if_neg hag, hbeq]
      simp

/-- While the agent timeline can never exceed the minute threshold, no
response of the run carries a minute-rate finding. -/
theorem runAccessLog_no_minute (ag : String) (l : List (IDS.AccessRec × Int)) :
    ∀ st : IDS.IdsState, (∀ p ∈ l, (Prod.fst p).agent = ag) →
      (st.access_history ag).length + l.length ≤ IDS.max_requests_per_minute →
      ((IDS.runAccessLog st l).2.all (fun r => !(IDS.hasMinuteFinding r))) = true := by
  induction l with
  | nil => intro st _ _; rfl
  | cons p t ih =>
    intro st hag hlen
    obtain ⟨d, n⟩ := p
    have hd : d.agent = ag := hag (d, n) (by simp)
    simp only [IDS.runAccessLog, List.all_cons, Bool.and_eq_true]
    constructor
    · have hstep : IDS.hasMinuteFinding (IDS.log_access_attempt st d n).2.1 = false := by
        apply log_access_no_minute
        rw [hd]
        simp only [List.length_cons] at hlen
        omega
      rw [hstep]
      rfl
    · apply ih
      · intro q hq
        exact hag q (by simp [hq])
      · have hlen1 : ((IDS.log_access_attempt st d n).1.access_history ag).length =
            (st.access_history ag).length + 1 := by
          rw [log_access_fst_history]
          rw [if_pos hd.symm, hd]
          simp
        rw [hlen1]
        simp only [List.length_cons] at hlen
        omega

/-- When the minute-rate check fires, _log_access_attempt returns an alert
whose findings start with the minute-rate finding. -/
theorem log_access_minute_alert (st : IDS.IdsState) (d : IDS.AccessRec) (now : Int)
    (h : IDS.max_requests_per_minute <
      IDS.count_recent_requests (IDS.appendAccess st d) d.agent 1 now) :
    IDS.isAlertResp (IDS.log_access_attempt st d now).2.1 = true ∧
    IDS.hasMinuteFinding (IDS.log_access_attempt st d now).2.1 = true := by
  unfold IDS.log_access_attempt
  cases hA : IDS.accessAnomalies (IDS.appendAccess st d) d now with
  | nil =>
    unfold IDS.accessAnomalies at hA
    rw [if_pos h] at hA
    exact absurd hA (by simp)
  | cons a rest =>
    unfold IDS.accessAnomalies at hA
    rw [if_pos h] at hA
    simp only [List.cons_append, List.nil_append] at hA
    injection hA with h1 h2
    subst h1
    exact ⟨rfl, rfl⟩

/-! ## Claim theorems: anomaly detector -/

/-- C4: minute-rate sliding window. Starting from an empty timeline for the
actor, the first 10 log_access evaluations never produce a
HIGH_REQUEST_RATE_MINUTE finding (whatever their timestamps), and an 11th
access whose 11 records all lie inside the trailing 60 seconds of its
evaluation time produces an alert carrying a HIGH_REQUEST_RATE_MINUTE
finding of severity HIGH. -/
theorem minute_rate_window (ag : String) (st : IDS.IdsState)
    (l : List (IDS.AccessRec × Int)) (r11 : IDS.AccessRec) (n11 : Int)
    (h0 : st.access_history ag = [])
    (hl : ∀ p ∈ l, (Prod.fst p).agent = ag)
    (h11 : r11.agent = ag)
    (hlen : l.length = 10)
    (hw : ∀ p ∈ l, n11 - 60 < (Prod.fst p).timestamp)
    (hw11 : n11 - 60 < r11.timestamp) :
    ((IDS.runAccessLog st l).2.all (fun r => !(IDS.hasMinuteFinding r))) = true ∧
    IDS.isAlertResp (IDS.log_access_attempt (IDS.runAccessLog st l).1 r11 n11).2.1 = true ∧
    IDS.hasMinuteFinding (IDS.log_access_attempt (IDS.runAccessLog st l).1 r11 n11).2.1
      = true := by
  refine ⟨?_, ?_⟩
  · apply runAccessLog_no_minute ag l st hl
    rw [h0, hlen]
    decide
  · have hhist : (IDS.runAccessLog st l).1.access_history ag = l.map Prod.fst := by
      rw [runAccessLog_fst_history, h0, List.nil_append]
      apply List.filter_eq_self.mpr
      intro r hr
      obtain ⟨p, hp, rfl⟩ := List.mem_map.mp hr
      rw [hl p hp]
      exact beq_self_eq_true ag
    have happ : (IDS.appendAccess (IDS.runAccessLog st l).1 r11).access_history r11.agent =
        (IDS.runAccessLog st l).1.access_history r11.agent ++ [r11] := by
      simp [IDS.appendAccess]
    have hcount : IDS.count_recent_requests
        (IDS.appendAccess (IDS.runAccessLog st l).1 r11) r11.agent 1 n11 = 11 := by
      unfold IDS.count_recent_requests
      rw [happ, h11, hhist]
      rw [List.filter_eq_self.mpr ?_]
      · rw [List.length_append, List.length_map, hlen]
        rfl
      · intro x hx
        rcases List.mem_append.mp hx with hx | hx
        · obtain ⟨p, hp, rfl⟩ := List.mem_map.mp hx
          simp only [decide_eq_true_eq]
          have := hw p hp
          omega
        · have hx11 : x = r11 := by simpa using hx
          subst hx11
          simp only [decide_eq_true_eq]
          omega
    exact log_access_minute_alert (IDS.runAccessLog st l).1 r11 n11
      (by rw [hcount]; decide)

/-- C4 witness: ten accesses by the same actor draw no minute-rate finding,
and the eleventh inside the window raises the HIGH finding in an alert. -/
theorem minute_rate_window_witness :
    ((IDS.runAccessLog IDS.initState
        [ (⟨"dr", "retrieve_patient", "P001", 25201⟩, 25201),
          (⟨"dr", "retrieve_patient", "P002", 25202⟩, 25202),
          (⟨"dr", "retrieve_patient", "P003", 25203⟩, 25203),
          (⟨"dr", "retrieve_patient", "P004", 25204⟩, 25204),
          (⟨"dr", "retrieve_patient", "P005", 25205⟩, 25205),
          (⟨"dr", "retrieve_patient", "P006", 25206⟩, 25206),
          (⟨"dr", "retrieve_patient", "P007", 25207⟩, 25207),
          (⟨"dr", "retrieve_patient", "P008", 25208⟩, 25208),
          (⟨"dr", "retrieve_patient", "P009", 25209⟩, 25209),
          (⟨"dr", "retrieve_patient", "P010", 25210⟩, 25210) ]).2.all (fun r => !(IDS.hasMinuteFinding r))) = true ∧
    IDS.isAlertResp (IDS.log_access_attempt
        (IDS.runAccessLog IDS.initState
          [ (⟨"dr", "retrieve_patient", "P001", 25201⟩, 25201),
          (⟨"dr", "retrieve_patient", "P002", 25202⟩, 25202),
          (⟨"dr", "retrieve_patient", "P003", 25203⟩, 25203),
          (⟨"dr", "retrieve_patient", "P004", 25204⟩, 25204),
          (⟨"dr", "retrieve_patient", "P005", 25205⟩, 25205),
          (⟨"dr", "retrieve_patient", "P006", 25206⟩, 25206),
          (⟨"dr", "retrieve_patient", "P007", 25207⟩, 25207),
          (⟨"dr", "retrieve_patient", "P008", 25208⟩, 25208),
          (⟨"dr", "retrieve_patient", "P009", 25209⟩, 25209),
          (⟨"dr", "retrieve_patient", "P010", 25210⟩, 25210) ]).1
        ⟨"dr", "retrieve_patient", "P011", 25211⟩ 25260).2.1 = true ∧
    IDS.hasMinuteFinding (IDS.log_access_attempt
        (IDS.runAccessLog IDS.initState
          [ (⟨"dr", "retrieve_patient", "P001", 25201⟩, 25201),
          (⟨"dr", "retrieve_patient", "P002", 25202⟩, 25202),
          (⟨"dr", "retrieve_patient", "P003", 25203⟩, 25203),
          (⟨"dr", "retrieve_patient", "P004", 25204⟩, 25204),
          (⟨"dr", "retrieve_patient", "P005", 25205⟩, 25205),
          (⟨"dr", "retrieve_patient", "P006", 25206⟩, 25206),
          (⟨"dr", "retrieve_patient", "P007", 25207⟩, 25207),
          (⟨"dr", "retrieve_patient", "P008", 25208⟩, 25208),
          (⟨"dr", "retrieve_patient", "P009", 25209⟩, 25209),
          (⟨"dr", "retrieve_patient", "P010", 25210⟩, 25210) ]).1
        ⟨"dr", "retrieve_patient", "P011", 25211⟩ 25260).2.1 = true :=
  minute_rate_window "dr" IDS.initState
    [ (⟨"dr", "retrieve_patient", "P001", 25201⟩, 25201),
          (⟨"dr", "retrieve_patient", "P002", 25202⟩, 25202),
          (⟨"dr", "retrieve_patient", "P003", 25203⟩, 25203),
          (⟨"dr", "retrieve_patient", "P004", 25204⟩, 25204),
          (⟨"dr", "retrieve_patient", "P005", 25205⟩, 25205),
          (⟨"dr", "retrieve_patient", "P006", 25206⟩, 25206),
          (⟨"dr", "retrieve_patient", "P007", 25207⟩, 25207),
          (⟨"dr", "retrieve_patient", "P008", 25208⟩, 25208),
          (⟨"dr", "retrieve_patient", "P009", 25209⟩, 25209),
          (⟨"dr", "retrieve_patient", "P010", 25210⟩, 25210) ]
    ⟨"dr", "retrieve_patient", "P011", 25211⟩ 25260
    rfl (by decide) rfl (by decide) (by decide) (by decide)

/-- The state component of _log_denied_attempt extends denied_attempts exactly
by the stored denial record on the agent timeline. -/
theorem log_denied_fst_denials (st : IDS.IdsState) (d : IDS.DenialMsg) (now : Int)
    (a : String) :
    ((IDS.log_denied_attempt st d now).1).denied_attempts a =
      if a = d.agent then st.denied_attempts d.agent ++ [IDS.mkDenial d]
      else st.denied_attempts a := by
  unfold IDS.log_denied_attempt
  split <;> rfl

/-- Below the denial threshold, _log_denied_attempt only records the denial. -/
theorem log_denied_logged (st : IDS.IdsState) (d : IDS.DenialMsg) (now : Int)
    (h : ¬(IDS.max_denied_attempts ≤
      IDS.count_recent_denials (IDS.appendDenial st (IDS.mkDenial d)) d.agent 10 now)) :
    (IDS.log_denied_attempt st d now).2.1 = IDS.IdsResp.loggedR := by
  unfold IDS.log_denied_attempt
  rw [if_neg h]

/-- At or above the denial threshold, _log_denied_attempt emits a CRITICAL
alert carrying the REPEATED_DENIED_ATTEMPTS finding. -/
theorem log_denied_alert (st : IDS.IdsState) (d : IDS.DenialMsg) (now : Int)
    (h : IDS.max_denied_attempts ≤
      IDS.count_recent_denials (IDS.appendDenial st (IDS.mkDenial d)) d.agent 10 now) :
    IDS.isAlertResp (IDS.log_denied_attempt st d now).2.1 = true ∧
    IDS.respSeverity (IDS.log_denied_attempt st d now).2.1 =
      Option.some IDS.Severity.CRITICAL ∧
    IDS.hasDenialFinding (IDS.log_denied_attempt st d now).2.1 = true := by
  unfold IDS.log_denied_attempt
  rw [if_pos h]
  exact ⟨rfl, rfl, rfl⟩

/-- C5: denial escalation. Starting from an empty denial timeline for the
actor, the 1st and 2nd denial only get logged, and a 3rd denial whose three
records all lie inside the trailing 10 minutes of its evaluation time raises
a CRITICAL alert carrying a REPEATED_DENIED_ATTEMPTS finding. -/
theorem denial_escalation (ag : String) (st : IDS.IdsState)
    (d1 d2 d3 : IDS.DenialMsg) (n1 n2 n3 : Int)
    (h0 : st.denied_attempts ag = [])
    (ha1 : d1.agent = ag) (ha2 : d2.agent = ag) (ha3 : d3.agent = ag)
    (hw1 : n3 - 600 < d1.timestamp) (hw2 : n3 - 600 < d2.timestamp)
    (hw3 : n3 - 600 < d3.timestamp) :
    (IDS.log_denied_attempt st d1 n1).2.1 = IDS.IdsResp.loggedR ∧
    (IDS.log_denied_attempt (IDS.log_denied_attempt st d1 n1).1 d2 n2).2.1 =
      IDS.IdsResp.loggedR ∧
    IDS.isAlertResp (IDS.log_denied_attempt
        (IDS.log_denied_attempt (IDS.log_denied_attempt st d1 n1).1 d2 n2).1
        d3 n3).2.1 = true ∧
    IDS.respSeverity (IDS.log_denied_attempt
        (IDS.log_denied_attempt (IDS.log_denied_attempt st d1 n1).1 d2 n2).1
        d3 n3).2.1 = Option.some IDS.Severity.CRITICAL ∧
    IDS.hasDenialFinding (IDS.log_denied_attempt
        (IDS.log_denied_attempt (IDS.log_denied_attempt st d1 n1).1 d2 n2).1
        d3 n3).2.1 = true := by
  have hm : IDS.max_denied_attempts = 3 := rfl
  have happ1 : (IDS.appendDenial st (IDS.mkDenial d1)).denied_attempts d1.agent =
      st.denied_attempts d1.agent ++ [IDS.mkDenial d1] := by
    simp [IDS.appendDenial, IDS.mkDenial]
  have hc1 : IDS.count_recent_denials
      (IDS.appendDenial st (IDS.mkDenial d1)) d1.agent 10 n1 ≤ 1 := by
    unfold IDS.count_recent_denials
    rw [happ1, ha1, h0, List.nil_append]
    calc (List.filter _ [IDS.mkDenial d1]).length
        ≤ ([IDS.mkDenial d1]).length := List.length_filter_le _ _
      _ = 1 := rfl
  have hs1 : (IDS.log_denied_attempt st d1 n1).2.1 = IDS.IdsResp.loggedR :=
    log_denied_logged st d1 n1 (by omega)
  have hd1 : ((IDS.log_denied_attempt st d1 n1).1).denied_attempts ag =
      [IDS.mkDenial d1] := by
    rw [log_denied_fst_denials, if_pos ha1.symm, ha1, h0, List.nil_append]
  have happ2 : (IDS.appendDenial (IDS.log_denied_attempt st d1 n1).1
      (IDS.mkDenial d2)).denied_attempts d2.agent =
      ((IDS.log_denied_attempt st d1 n1).1).denied_attempts d2.agent ++ [IDS.mkDenial d2] := by
    simp [IDS.appendDenial, IDS.mkDenial]
  have hc2 : IDS.count_recent_denials
      (IDS.appendDenial (IDS.log_denied_attempt st d1 n1).1 (IDS.mkDenial d2))
      d2.agent 10 n2 ≤ 2 := by
    unfold IDS.count_recent_denials
    rw [happ2, ha2, hd1]
    calc (List.filter _ ([IDS.mkDenial d1] ++ [IDS.mkDenial d2])).length
        ≤ ([IDS.mkDenial d1] ++ [IDS.mkDenial d2]).length := List.length_filter_le _ _
      _ = 2 := rfl
  have hs2 : (IDS.log_denied_attempt (IDS.log_denied_attempt st d1 n1).1 d2 n2).2.1 =
      IDS.IdsResp.loggedR :=
    log_denied_logged _ d2 n2 (by omega)
  have hd2 : ((IDS.log_denied_attempt (IDS.log_denied_attempt st d1 n1).1 d2 n2).1).denied_attempts
      ag = [IDS.mkDenial d1, IDS.mkDenial d2] := by
    rw [log_denied_fst_denials, if_pos ha2.symm, ha2, hd1]
    rfl
  have happ3 : (IDS.appendDenial
      (IDS.log_denied_attempt (IDS.log_denied_attempt st d1 n1).1 d2 n2).1
      (IDS.mkDenial d3)).denied_attempts d3.agent =
      ((IDS.log_denied_attempt (IDS.log_denied_attempt st d1 n1).1 d2 n2).1).denied_attempts
        d3.agent ++ [IDS.mkDenial d3] := by
    simp [IDS.appendDenial, IDS.mkDenial]
  have hc3 : IDS.count_recent_denials
      (IDS.appendDenial (IDS.log_denied_attempt (IDS.log_denied_attempt st d1 n1).1 d2 n2).1
        (IDS.mkDenial d3)) d3.agent 10 n3 = 3 := by
    unfold IDS.count_recent_denials
    rw [happ3, ha3, hd2]
    rw [List.filter_eq_self.mpr ?_]
    · rfl
    · intro x hx
      have hx3 : x = IDS.mkDenial d1 ∨ x = IDS.mkDenial d2 ∨ x = IDS.mkDenial d3 := by
        simpa using hx
      rcases hx3 with hx | hx | hx <;> subst hx
      · show (decide (n3 - 10 * 60 < d1.timestamp)) = true
        simp only [decide_eq_true_eq]
        omega
      · show (decide (n3 - 10 * 60 < d2.timestamp)) = true
        simp only [decide_eq_true_eq]
        omega
      · show (decide (n3 - 10 * 60 < d3.timestamp)) = true
        simp only [decide_eq_true_eq]
        omega
  refine ⟨hs1, hs2, ?_⟩
  exact log_denied_alert _ d3 n3 (by omega)

/-- C5 witness: two denials by the same actor are only logged, the third
within ten minutes raises the CRITICAL repeated-denials alert. -/
theorem denial_escalation_witness :
    (IDS.log_denied_attempt IDS.initState
      ⟨"biller", "access_diagnosis", "denied", "P001", 1000⟩ 1000).2.1 = IDS.IdsResp.loggedR ∧
    (IDS.log_denied_attempt (IDS.log_denied_attempt IDS.initState
      ⟨"biller", "access_diagnosis", "denied", "P001", 1000⟩ 1000).1
      ⟨"biller", "access_diagnosis", "denied", "P002", 1010⟩ 1010).2.1 = IDS.IdsResp.loggedR ∧
    IDS.isAlertResp (IDS.log_denied_attempt
        (IDS.log_denied_attempt (IDS.log_denied_attempt IDS.initState
          ⟨"biller", "access_diagnosis", "denied", "P001", 1000⟩ 1000).1
          ⟨"biller", "access_diagnosis", "denied", "P002", 1010⟩ 1010).1
        ⟨"biller", "access_diagnosis", "denied", "P003", 1020⟩ 1020).2.1 = true ∧
    IDS.respSeverity (IDS.log_denied_attempt
        (IDS.log_denied_attempt (IDS.log_denied_attempt IDS.initState
          ⟨"biller", "access_diagnosis", "denied", "P001", 1000⟩ 1000).1
          ⟨"biller", "access_diagnosis", "denied", "P002", 1010⟩ 1010).1
        ⟨"biller", "access_diagnosis", "denied", "P003", 1020⟩ 1020).2.1 = Option.some IDS.Severity.CRITICAL ∧
    IDS.hasDenialFinding (IDS.log_denied_attempt
        (IDS.log_denied_attempt (IDS.log_denied_attempt IDS.initState
          ⟨"biller", "access_diagnosis", "denied", "P001", 1000⟩ 1000).1
          ⟨"biller", "access_diagnosis", "denied", "P002", 1010⟩ 1010).1
        ⟨"biller", "access_diagnosis", "denied", "P003", 1020⟩ 1020).2.1 = true :=
  denial_escalation "biller" IDS.initState
    ⟨"biller", "access_diagnosis", "denied", "P001", 1000⟩
    ⟨"biller", "access_diagnosis", "denied", "P002", 1010⟩
    ⟨"biller", "access_diagnosis", "denied", "P003", 1020⟩
    1000 1010 1020 rfl rfl rfl rfl (by decide) (by decide) (by decide)

/-- The Python max fold dominates its seed and every list element. -/
theorem pySevMax_ge (t : List IDS.Severity) :
    ∀ h : IDS.Severity, IDS.sevIdx h ≤ IDS.sevIdx (IDS.pySevMax h t) ∧
      ∀ s ∈ t, IDS.sevIdx s ≤ IDS.sevIdx (IDS.pySevMax h t) := by
  induction t with
  | nil =>
    intro h
    exact ⟨le_refl _, by intro s hs; simp at hs⟩
  | cons s t ih =>
    intro h
    have hstep : IDS.pySevMax h (s :: t) =
        IDS.pySevMax (if IDS.sevIdx h < IDS.sevIdx s then s else h) t := rfl
    rw [hstep]
    obtain ⟨ih1, ih2⟩ := ih (if IDS.sevIdx h < IDS.sevIdx s then s else h)
    constructor
    · refine le_trans ?_ ih1
      by_cases hlt : IDS.sevIdx h < IDS.sevIdx s
      · rw [if_pos hlt]
        exact le_of_lt hlt
      · rw [if_neg hlt]
    · intro x hx
      rcases List.mem_cons.mp hx with hx | hx
      · subst hx
        refine le_trans ?_ ih1
        by_cases hlt : IDS.sevIdx h < IDS.sevIdx x
        · rw [if_pos hlt]
        · rw [if_neg hlt]
          omega
      · exact ih2 x hx

/-- The Python max fold returns its seed or a list element. -/
theorem pySevMax_mem (t : List IDS.Severity) :
    ∀ h : IDS.Severity, IDS.pySevMax h t = h ∨ IDS.pySevMax h t ∈ t := by
  induction t with
  | nil => intro h; exact Or.inl rfl
  | cons s t ih =>
    intro h
    have hstep : IDS.pySevMax h (s :: t) =
        IDS.pySevMax (if IDS.sevIdx h < IDS.sevIdx s then s else h) t := rfl
    rw [hstep]
    rcases ih (if IDS.sevIdx h < IDS.sevIdx s then s else h) with heq | hmem
    · rw [heq]
      by_cases hlt : IDS.sevIdx h < IDS.sevIdx s
      · rw [if_pos hlt]
        exact Or.inr (List.mem_cons_self s t)
      · rw [if_neg hlt]
        exact Or.inl rfl
    · exact Or.inr (List.mem_cons_of_mem s hmem)

/-- C6: alert severity aggregation. The alert built from a non-empty finding
list carries the maximum of the finding severities under the order
LOW < MEDIUM < HIGH < CRITICAL — it dominates every finding and is attained
by one of them — and the recommended action is the one fixed by that maximum
severity; in particular findings [MEDIUM, HIGH] yield severity HIGH. -/
theorem alert_severity_max (st : IDS.IdsState) (ag act pid : String)
    (a0 : IDS.Finding) (rest : List IDS.Finding) (now : Int) :
    (∀ g ∈ a0 :: rest,
      IDS.sevIdx g.severity ≤ IDS.sevIdx (IDS.mkAlert st ag act pid a0 rest now).severity) ∧
    ((IDS.mkAlert st ag act pid a0 rest now).severity = a0.severity ∨
      (IDS.mkAlert st ag act pid a0 rest now).severity ∈ rest.map (fun f => f.severity)) ∧
    (IDS.mkAlert st ag act pid a0 rest now).recommended_action =
      IDS.get_recommended_action (IDS.mkAlert st ag act pid a0 rest now).severity ∧
    (IDS.mkAlert st ag act pid
      ⟨"F1", IDS.Severity.MEDIUM, ""⟩ [⟨"F2", IDS.Severity.HIGH, ""⟩] now).severity =
      IDS.Severity.HIGH := by
  have hsev : (IDS.mkAlert st ag act pid a0 rest now).severity =
      IDS.pySevMax a0.severity (rest.map (fun f => f.severity)) := rfl
  refine ⟨?_, ?_, rfl, rfl⟩
  · intro g hg
    rw [hsev]
    rcases List.mem_cons.mp hg with hg | hg
    · subst hg
      exact (pySevMax_ge _ _).1
    · exact (pySevMax_ge _ _).2 g.severity (List.mem_map.mpr ⟨g, hg, rfl⟩)
  · rw [hsev]
    exact pySevMax_mem _ _

/-- C6 witness: with findings of severities MEDIUM and HIGH the alert
severity dominates the first finding and equals HIGH. -/
theorem alert_severity_max_witness :
    IDS.sevIdx IDS.Severity.MEDIUM ≤
      IDS.sevIdx (IDS.mkAlert IDS.initState "a" "b" "P" ⟨"F1", IDS.Severity.MEDIUM, ""⟩
        [⟨"F2", IDS.Severity.HIGH, ""⟩] 0).severity ∧
    (IDS.mkAlert IDS.initState "a" "b" "P" ⟨"F1", IDS.Severity.MEDIUM, ""⟩
        [⟨"F2", IDS.Severity.HIGH, ""⟩] 0).severity = IDS.Severity.HIGH :=
  ⟨(alert_severity_max IDS.initState "a" "b" "P" ⟨"F1", IDS.Severity.MEDIUM, ""⟩
      [⟨"F2", IDS.Severity.HIGH, ""⟩] 0).1 ⟨"F1", IDS.Severity.MEDIUM, ""⟩
      (List.mem_cons_self _ _),
   (alert_severity_max IDS.initState "a" "b" "P" ⟨"F1", IDS.Severity.MEDIUM, ""⟩
      [⟨"F2", IDS.Severity.HIGH, ""⟩] 0).2.2.2⟩

/-! ## Claim theorems: message bus -/

/-- C7: handler-fault containment. When the registered target handler raises,
dispatch_message returns an error-status response carrying the exception
text; the result is an ordinary value of the total dispatch function, so the
exception never propagates to the caller. -/
theorem handler_fault_containment (o : Bus.OrchState) (m : Bus.BusMessage)
    (t : String) (a : Bus.BusAgent) (e : String)
    (hto : m.to_ = Option.some t) (hne : t ≠ "")
    (hsub : o.subscribers.lookup t = Option.some a)
    (hag : o.agents.lookup t = Option.some a)
    (hraise : a.handler m = Except.error e) :
    (Bus.dispatch_message o m).1 = Bus.DispatchOutcome.errorResp e := by
  unfold Bus.dispatch_message Bus.route_if_possible
  rw [hto]
  simp [hsub, hag, hraise, hne]

/-- C7 witness: a registered agent raising boom yields the error-status
response with that message. -/
theorem handler_fault_containment_witness :
    (Bus.dispatch_message
      { subscribers := [("b", { handler := fun _ => Except.error "boom" })],
        agents := [("b", { handler := fun _ => Except.error "boom" })] }
      { from_ := "x", to_ := Option.some "b", action := "act", payload := "" }).1 =
      Bus.DispatchOutcome.errorResp "boom" :=
  handler_fault_containment
    { subscribers := [("b", { handler := fun _ => Except.error "boom" })],
      agents := [("b", { handler := fun _ => Except.error "boom" })] }
    { from_ := "x", to_ := Option.some "b", action := "act", payload := "" }
    "b" { handler := fun _ => Except.error "boom" } "boom"
    rfl (by decide) rfl rfl rfl

/-- C10: double delivery on handler fault. For an agent registered through
register_agent (entered in both the subscriber map and the agent registry),
a message whose handler raises makes dispatch_message run that handler twice
— once in route_if_possible, once on the fallback path — before returning
the error-status response. -/
theorem double_delivery_on_fault (o0 : Bus.OrchState) (agent_id : String)
    (a : Bus.BusAgent) (m : Bus.BusMessage) (e : String)
    (hto : m.to_ = Option.some agent_id) (hne : agent_id ≠ "")
    (hraise : a.handler m = Except.error e) :
    Bus.dispatch_message (Bus.register_agent o0 agent_id a) m =
      (Bus.DispatchOutcome.errorResp e, 2) := by
  unfold Bus.register_agent Bus.dispatch_message Bus.route_if_possible
  rw [hto]
  simp [List.lookup, hraise, hne]

/-- C10 witness: registering a raising agent and dispatching to it invokes
the handler twice and returns the error-status response. -/
theorem double_delivery_on_fault_witness :
    Bus.dispatch_message
      (Bus.register_agent { subscribers := [], agents := [] } "b"
        { handler := fun _ => Except.error "boom" })
      { from_ := "x", to_ := Option.some "b", action := "act", payload := "" } =
      (Bus.DispatchOutcome.errorResp "boom", 2) :=
  double_delivery_on_fault { subscribers := [], agents := [] } "b"
    { handler := fun _ => Except.error "boom" }
    { from_ := "x", to_ := Option.some "b", action := "act", payload := "" }
    "boom" rfl (by decide) rfl

/-! ## Claim theorems: audit trail export -/

/-- C8: export round-trip. A json export returns exactly the list the query
with the same filters returns — the same entries, hence the same log_id
values in the same order. -/
theorem export_roundtrip_json (q : AuditLogger.QueryFilters)
    (table : List AuditLogger.AuditEntry) :
    AuditLogger.jsonLogs (AuditLogger.export_logs "json" q table) =
      Option.some (AuditLogger.query_logs q table) ∧
    (AuditLogger.jsonLogs (AuditLogger.export_logs "json" q table)).map
        (fun logs => logs.map (fun e => e.log_id)) =
      Option.some ((AuditLogger.query_logs q table).map (fun e => e.log_id)) := by
  constructor <;> rfl

/-- String append concatenates the character lists. -/
theorem str_data_append (a b : String) : (a ++ b).data = a.data ++ b.data := by
  cases a
  cases b
  rfl

/-- Comma counts add over string append. -/
theorem countComma_append (a b : String) :
    AuditLogger.countComma (a ++ b) =
      AuditLogger.countComma a + AuditLogger.countComma b := by
  unfold AuditLogger.countComma
  rw [str_data_append, List.count_append]

/-- Escaping removes every comma. -/
theorem countComma_escape (s : String) :
    AuditLogger.countComma (AuditLogger.escapeCommas s) = 0 := by
  unfold AuditLogger.countComma AuditLogger.escapeCommas
  rw [List.count_eq_zero]
  intro hmem
  obtain ⟨c, _, hc⟩ := List.mem_map.mp hmem
  by_cases h : c = ','
  · rw [if_pos h] at hc
    exact absurd hc (by decide)
  · rw [if_neg h] at hc
    exact h hc

/-- Comma count of a comma-joined row: the member counts plus one separator
per gap. -/
theorem countComma_joinComma (l : List String) :
    ∀ x : String, AuditLogger.countComma (AuditLogger.joinComma (x :: l)) =
      AuditLogger.countComma x + (l.map AuditLogger.countComma).sum + l.length := by
  induction l with
  | nil =>
    intro x
    simp [AuditLogger.joinComma]
  | cons y t ih =>
    intro x
    show AuditLogger.countComma (x ++ "," ++ AuditLogger.joinComma (y :: t)) = _
    rw [countComma_append, countComma_append, ih y]
    have h1 : AuditLogger.countComma "," = 1 := rfl
    rw [h1]
    simp only [List.map_cons, List.sum_cons, List.length_cons]
    omega

/-- C9 counterexample: exporting as csv with no matching entries does not
return a header row plus one line per entry — it returns the fixed
placeholder string, which is not the header line. -/
theorem csv_export_counterexample :
    AuditLogger.export_logs "csv" AuditLogger.emptyFilters [] =
      AuditLogger.ExportResp.csvR "No logs to export" ∧
    "No logs to export" ≠ AuditLogger.joinComma AuditLogger.csvHeaders := by
  constructor
  · rfl
  · decide

/-- C9 (amended): for every NON-EMPTY list of audit entries the csv export
body is a header row plus exactly one joined line per entry, the details
column is comma-escaped (and when the other eight columns are comma-free the
row keeps exactly 8 separators, preserving column alignment); the empty list
instead yields the placeholder string; and any format other than json and
csv yields an error-status response. -/
theorem csv_export_amended (e : AuditLogger.AuditEntry) (es : List AuditLogger.AuditEntry)
    (format : String) (q : AuditLogger.QueryFilters)
    (table : List AuditLogger.AuditEntry) :
    (AuditLogger.csvLines (e :: es)).length = (e :: es).length + 1 ∧
    AuditLogger.csvLines (e :: es) =
      AuditLogger.joinComma AuditLogger.csvHeaders ::
        (e :: es).map (fun x => AuditLogger.joinComma (AuditLogger.csvRow x)) ∧
    AuditLogger.convert_to_csv (e :: es) =
      AuditLogger.joinNewline (AuditLogger.csvLines (e :: es)) ∧
    AuditLogger.countComma (AuditLogger.escapeCommas e.details) = 0 ∧
    (AuditLogger.countComma (toString e.log_id) = 0 →
      AuditLogger.countComma e.timestamp = 0 →
      AuditLogger.countComma e.agent_id = 0 →
      AuditLogger.countComma e.action = 0 →
      AuditLogger.countComma e.patient_id = 0 →
      AuditLogger.countComma e.category = 0 →
      AuditLogger.countComma e.severity = 0 →
      AuditLogger.countComma e.result = 0 →
      AuditLogger.countComma (AuditLogger.joinComma (AuditLogger.csvRow e)) = 8) ∧
    AuditLogger.convert_to_csv [] = "No logs to export" ∧
    (format ≠ "json" → format ≠ "csv" →
      AuditLogger.isErrorResp (AuditLogger.export_logs format q table) = true) := by
  refine ⟨?_, rfl, ?_, countComma_escape e.details, ?_, rfl, ?_⟩
  · simp [AuditLogger.csvLines]
  · simp [AuditLogger.convert_to_csv]
  · intro h0 h1 h2 h3 h4 h5 h6 h7
    unfold AuditLogger.csvRow
    rw [countComma_joinComma]
    rw [h0]
    simp only [List.map_cons, List.map_nil, List.sum_cons, List.sum_nil, List.length_cons,
      List.length_nil]
    rw [h1, h2, h3, h4, h5, h6, h7, countComma_escape]
    omega
  · intro hj hc
    unfold AuditLogger.export_logs
    rw [if_neg hj, if_neg hc]
    rfl

/-- C9 witness: a concrete entry whose details contain a comma keeps exactly
8 separators in its csv row, the escape removes the comma, and an xml export
is an error. -/
theorem csv_export_amended_witness :
    AuditLogger.countComma (AuditLogger.joinComma (AuditLogger.csvRow
      ⟨1, "2024-01-01T00:00:00", "doctor_agent", "retrieve_patient", "P001",
       "ACCESS", "INFO", "SUCCESS", "weight loss, anxiety"⟩)) = 8 ∧
    AuditLogger.countComma (AuditLogger.escapeCommas "weight loss, anxiety") = 0 ∧
    AuditLogger.isErrorResp
      (AuditLogger.export_logs "xml" AuditLogger.emptyFilters []) = true :=
  ⟨(csv_export_amended
      ⟨1, "2024-01-01T00:00:00", "doctor_agent", "retrieve_patient", "P001",
       "ACCESS", "INFO", "SUCCESS", "weight loss, anxiety"⟩ [] "xml"
      AuditLogger.emptyFilters []).2.2.2.2.1
      (by decide) (by decide) (by decide) (by decide) (by decide) (by decide)
      (by decide) (by decide),
   (csv_export_amended
      ⟨1, "2024-01-01T00:00:00", "doctor_agent", "retrieve_patient", "P001",
       "ACCESS", "INFO", "SUCCESS", "weight loss, anxiety"⟩ [] "xml"
      AuditLogger.emptyFilters []).2.2.2.1,
   (csv_export_amended
      ⟨1, "2024-01-01T00:00:00", "doctor_agent", "retrieve_patient", "P001",
       "ACCESS", "INFO", "SUCCESS", "weight loss, anxiety"⟩ [] "xml"
      AuditLogger.emptyFilters []).2.2.2.2.2.2 (by decide) (by decide)⟩
